import Mathlib

/-!
Shallow embedding of the trivia backend (`src/backend/flaskr/__init__.py`).

The storage layer is modelled as explicit lists of rows (`List Question`,
`List Category`) threaded through the handlers; ORM queries become list
filters, and Python list slicing (including its negative-index semantics)
is embedded as `pySlice`.  Each Flask route handler becomes a pure Lean
function returning an explicit result value; `abort(n)` becomes an error
constructor carrying the status code `n`.
-/

/-- A `Question` row: id, question text, answer text, category id, difficulty.
The column set follows §3 of the spec (models.py is not part of src). -/
structure Question where
  id : Nat
  question : String
  answer : String
  category : Nat
  difficulty : Nat
deriving Repr, DecidableEq

/-- A `Category` row: id and display label. -/
structure Category where
  id : Nat
  type : String
deriving Repr, DecidableEq

/-- Modelled from the spec: `Question.format` lives in the absent `models.py`;
§3 of the spec gives the five serialized fields (id, question, answer,
category, difficulty). -/
structure FormattedQuestion where
  id : Nat
  question : String
  answer : String
  category : Nat
  difficulty : Nat
deriving Repr, DecidableEq

/-- Modelled from the spec: serialization of a question row into the JSON
record carrying the same five fields. -/
def Question.format (q : Question) : FormattedQuestion :=
  ⟨q.id, q.question, q.answer, q.category, q.difficulty⟩

/-- Clamp a (possibly negative) Python slice index to a position in a list of
length `len`: a negative index counts from the end and is clamped below at 0,
a non-negative index is clamped above at `len`. -/
def pyIndex (i : Int) (len : Nat) : Nat :=
  if i < 0 then ((len : Int) + i).toNat else min i.toNat len

/-- Python list slicing `xs[a:b]`: the elements with positions in
`[pyIndex a, pyIndex b)`. -/
def pySlice (xs : List α) (a b : Int) : List α :=
  (xs.take (pyIndex b xs.length)).drop (pyIndex a xs.length)

def QUESTIONS_PER_PAGE : Nat := 10

/-- `paginate(request, selection)`: `page` is the already-parsed `page` query
parameter (`request.args.get('page', 1, type=int)`; default/non-integer
handling happens in that parse, so the embedded function takes the integer
directly).  Computes `start = (page - 1) * 10`, `end = start + 10`, formats
the rows and returns the Python slice `questions[start:end]`. -/
def paginate (page : Int) (selection : List Question) : List FormattedQuestion :=
  let start : Int := (page - 1) * (QUESTIONS_PER_PAGE : Int)
  let stop : Int := start + (QUESTIONS_PER_PAGE : Int)
  let questions := selection.map Question.format
  pySlice questions start stop

/-- A negative slice index resolves to an offset from the end, clamped at 0. -/
theorem pyIndex_of_neg {i : Int} (h : i < 0) (L : Nat) :
    pyIndex i L = ((L : Int) + i).toNat := by
  simp [pyIndex, h]

/-- A non-negative slice index is clamped above at the length. -/
theorem pyIndex_of_nonneg {i : Int} (h : 0 ≤ i) (L : Nat) :
    pyIndex i L = min i.toNat L := by
  simp [pyIndex, Int.not_lt.mpr h]

/-- `GET /questions` result: either an aborted status code or the success
payload (questions page, total count before pagination, category labels). -/
inductive GetQuestionsResult
  | err (code : Nat)
  | ok (questions : List FormattedQuestion) (total_questions : Nat)
      (categories : List String)
deriving Repr, DecidableEq

/-- `get_questions`: reads all questions, remembers the total, paginates,
collects the category labels, aborts 404 when the page slice is empty. -/
def get_questions (page : Int) (store : List Question) (cats : List Category) :
    GetQuestionsResult :=
  let total := store.length
  let selection := paginate page store
  let categories := cats.map Category.type
  if selection.length = 0 then .err 404
  else .ok selection total categories

/-- `DELETE /questions/<id>` result: aborted status code or `deleted` id. -/
inductive DeleteResult
  | err (code : Nat)
  | ok (deleted : Nat)
deriving Repr, DecidableEq

/-- `delete_question`: `Question.query.get(id)` becomes a `find?` on the store;
404 when absent, otherwise the row is deleted and the id echoed back.  The
function also returns the store after the request. -/
def delete_question (id : Nat) (store : List Question) :
    DeleteResult × List Question :=
  match store.find? (fun q => q.id = id) with
  | none => (.err 404, store)
  | some _ => (.ok id, store.filter (fun q => q.id ≠ id))

/-- JSON body of `POST /questions`: absent keys are `none`; `body.get(k)`
returns `None` for an absent key. -/
structure PostQuestionBody where
  searchTerm : Option String
  question : Option String
  answer : Option String
  difficulty : Option Nat
  category : Option Nat
deriving Repr, DecidableEq

/-- `POST /questions` result: aborted status code, search payload, or create
payload. -/
inductive PostQuestionResult
  | err (code : Nat)
  | searchOk (questions : List FormattedQuestion) (total_questions : Nat)
  | createOk (created : Nat) (question_created : String)
      (questions : List FormattedQuestion) (total_questions : Nat)
deriving Repr, DecidableEq

/-- Python truthiness of `body.get('searchTerm')`: `None` and the empty
string are falsy. -/
def optStrTruthy : Option String → Bool
  | none => false
  | some s => s ≠ ""

/-- Whether `needle` occurs as a contiguous run inside `hay`. -/
def hasSub (needle : List Char) : List Char → Bool
  | [] => needle.isEmpty
  | c :: rest => needle.isPrefixOf (c :: rest) || hasSub needle rest

/-- `Question.question.ilike(f'%term%')`: case-insensitive substring match.
(LIKE wildcard characters inside the term itself are below the abstraction
level of this model; terms are treated as literal text, as the spec does.) -/
def ilikeContains (text term : String) : Bool :=
  hasSub (term.toList.map Char.toLower) (text.toList.map Char.toLower)

/-- `post_question`: branches on a truthy `searchTerm`.  Search mode filters
by case-insensitive substring, aborts 404 on no match, and reports
`total_questions` as the length of the paginated page.  Create mode aborts
422 when any of the four fields is `None`, otherwise inserts a row (the
database-assigned primary key arrives as `freshId`), re-reads all questions
and reports the page plus the full count.  The store after the request is
returned alongside. -/
def post_question (page : Int) (freshId : Nat) (body : PostQuestionBody)
    (store : List Question) : PostQuestionResult × List Question :=
  if optStrTruthy body.searchTerm then
    let search_term := body.searchTerm.getD ""
    let selection := store.filter (fun q => ilikeContains q.question search_term)
    if selection.length = 0 then (.err 404, store)
    else
      let results := paginate page selection
      (.searchOk results results.length, store)
  else
    match body.question, body.answer, body.difficulty, body.category with
    | some q, some a, some d, some c =>
      let question : Question := ⟨freshId, q, a, c, d⟩
      let newStore := store ++ [question]
      let current_questions := paginate page newStore
      (.createOk question.id question.question current_questions newStore.length,
        newStore)
    | _, _, _, _ => (.err 422, store)

/-- `GET /categories/<id>/questions` result. -/
inductive CategoryQuestionsResult
  | err (code : Nat)
  | ok (questions : List FormattedQuestion) (total_questions : Nat)
      (current_category : String)
deriving Repr, DecidableEq

/-- `get_questions_by_category`: `Category.query.get(id)` becomes a `find?`;
aborts 400 when the category is absent, else filters questions by the
category id, paginates, and reports the pre-pagination count and the
category label. -/
def get_questions_by_category (page : Int) (id : Nat) (store : List Question)
    (cats : List Category) : CategoryQuestionsResult :=
  match cats.find? (fun c => c.id = id) with
  | none => .err 400
  | some category =>
    let questions := store.filter (fun q => q.category = category.id)
    let question_paginated := paginate page questions
    .ok question_paginated questions.length category.type

/-- JSON body of `POST /quizzes` with its two required keys. -/
structure QuizBody where
  previous_questions : List Nat
  quiz_category_id : Nat
deriving Repr, DecidableEq

/-- `POST /quizzes` result: aborted status code, the bare `{success: true}`
exhaustion reply, a question reply, or an unhandled Python exception
(`random.choice` on an empty list raises `IndexError`). -/
inductive QuizResult
  | err (code : Nat)
  | exhausted
  | ok (question : FormattedQuestion)
  | crash
deriving Repr, DecidableEq

/-- The candidate questions of a quiz request: all questions when the
category id is 0, else the questions with that category id. -/
def quizCandidates (catId : Nat) (store : List Question) : List Question :=
  if catId = 0 then store else store.filter (fun q => q.category = catId)

/-- `post_random_quiz_question`: aborts 400 on a missing/empty body; replies
exhausted when the candidate count equals the length of
`previous_questions`; otherwise keeps the candidates whose id is not in
`previous_questions` and picks one at random.  `random.choice` is embedded
as indexing by `r % length` for an arbitrary `r`, which is `IndexError`
(modelled as `crash`) on the empty list. -/
def post_random_quiz_question (r : Nat) (body : Option QuizBody)
    (store : List Question) : QuizResult :=
  match body with
  | none => .err 400
  | some b =>
    let questions := quizCandidates b.quiz_category_id store
    let total := questions.length
    if total = b.previous_questions.length then .exhausted
    else
      let new_list := questions.filter (fun q => q.id ∉ b.previous_questions)
      match new_list[r % new_list.length]? with
      | none => .crash
      | some q => .ok q.format

/-- C1: for every question list of length `L` and every page `p ≥ 1`, the
pagination helper returns the contiguous sub-range of formatted items at
offset `10*(p-1)` of length `min 10 (L - 10*(p-1))` (truncated subtraction
realizes `max 0`), and it returns `[]` whenever the offset is at or beyond
`L`. -/
theorem claim_C1 (p : Int) (hp : 1 ≤ p) (qs : List Question) :
    paginate p qs = (((qs.map Question.format).drop (10 * (p - 1)).toNat).take 10) ∧
    (paginate p qs).length = min 10 (qs.length - (10 * (p - 1)).toNat) ∧
    (qs.length ≤ (10 * (p - 1)).toNat → paginate p qs = []) := by
  have hq : (10 * (p - 1)).toNat = ((p - 1) * (QUESTIONS_PER_PAGE : Int)).toNat := by
    unfold QUESTIONS_PER_PAGE; omega
  set xs := qs.map Question.format with hxs
  have hlen : xs.length = qs.length := by simp [hxs]
  set s : Nat := (10 * (p - 1)).toNat with hs
  have hmain : paginate p qs = (xs.drop s).take 10 := by
    unfold paginate pySlice pyIndex
    dsimp only
    have h1 : ¬ ((p - 1) * (QUESTIONS_PER_PAGE : Int) < 0) := by
      unfold QUESTIONS_PER_PAGE; nlinarith
    have h2 : ¬ ((p - 1) * (QUESTIONS_PER_PAGE : Int) + (QUESTIONS_PER_PAGE : Int) < 0) := by
      unfold QUESTIONS_PER_PAGE; nlinarith
    rw [if_neg h2, if_neg h1]
    have hst : ((p - 1) * (QUESTIONS_PER_PAGE : Int)).toNat = s := hq.symm
    have hstop : ((p - 1) * (QUESTIONS_PER_PAGE : Int) + (QUESTIONS_PER_PAGE : Int)).toNat
        = s + 10 := by
      unfold QUESTIONS_PER_PAGE at *
      omega
    rw [hst, hstop, ← hxs]
    rw [List.drop_take]
    by_cases hcase : s ≤ xs.length
    · have hmins : min s xs.length = s := Nat.min_eq_left hcase
      rw [hmins, List.take_eq_take]
      simp [List.length_drop]
      omega
    · have hmins : min s xs.length = xs.length := Nat.min_eq_right (by omega)
      rw [hmins]
      rw [List.drop_length]
      have : xs.drop s = [] := List.drop_eq_nil_iff.mpr (by omega)
      simp [this]
  refine ⟨hmain, ?_, ?_⟩
  · rw [hmain]
    simp [List.length_take, List.length_drop, hlen]
  · intro hle
    rw [hmain]
    have : xs.drop s = [] := List.drop_eq_nil_iff.mpr (by omega)
    simp [this]

/-- A concrete store of `n` distinct questions used by witnesses. -/
def sampleQuestions (n : Nat) : List Question :=
  (List.range n).map (fun i => ⟨i + 1, "q", "a", 1, 1⟩)

/-- Witness for C1 at page 2 on a 12-question store. -/
theorem claim_C1_witness :
    paginate 2 (sampleQuestions 12)
        = ((((sampleQuestions 12).map Question.format).drop ((10 : Int) * (2 - 1)).toNat).take 10) ∧
    (paginate 2 (sampleQuestions 12)).length
        = min 10 ((sampleQuestions 12).length - ((10 : Int) * (2 - 1)).toNat) ∧
    ((sampleQuestions 12).length ≤ ((10 : Int) * (2 - 1)).toNat →
      paginate 2 (sampleQuestions 12) = []) :=
  claim_C1 2 (by decide) (sampleQuestions 12)

/-- The spec's slice-length formula `min(10, max(0, L - 10*(p-1)))`, over Int
so that it is meaningful for every page number. -/
def specSliceLen (L : Nat) (p : Int) : Int :=
  min 10 (max 0 ((L : Int) - 10 * (p - 1)))

/-- C9: for page 0 the helper returns the empty slice; for a negative page
`p` on a list of length `L ≥ 10*(1-p)` it returns the sub-range
`[L - 10*(1-p), L - 10*(1-p) + 10)` taken from near the end (Python
negative-index slicing); and the spec's length formula does not describe
the behavior for some `p ≤ 0`. -/
theorem claim_C9 :
    (∀ qs : List Question, paginate 0 qs = []) ∧
    (∀ (p : Int) (qs : List Question), p < 0 →
      10 * (1 - p) ≤ (qs.length : Int) →
      paginate p qs =
        (((qs.map Question.format).drop
            (qs.length - (10 * (1 - p)).toNat)).take 10)) ∧
    (∃ (p : Int) (qs : List Question), p ≤ 0 ∧
      ((paginate p qs).length : Int) ≠ specSliceLen qs.length p) := by
  refine ⟨?_, ?_, ?_⟩
  · intro qs
    unfold paginate pySlice
    dsimp only
    have h1 : ((0 : Int) - 1) * (QUESTIONS_PER_PAGE : Int) < 0 := by
      unfold QUESTIONS_PER_PAGE; omega
    have h2 : (0 : Int) ≤ ((0 : Int) - 1) * (QUESTIONS_PER_PAGE : Int)
        + (QUESTIONS_PER_PAGE : Int) := by
      unfold QUESTIONS_PER_PAGE; omega
    rw [pyIndex_of_neg h1, pyIndex_of_nonneg h2]
    have h3 : (((0 : Int) - 1) * (QUESTIONS_PER_PAGE : Int)
        + (QUESTIONS_PER_PAGE : Int)).toNat = 0 := by
      unfold QUESTIONS_PER_PAGE; omega
    simp [h3]
  · intro p qs hp hL
    have hlen : (qs.map Question.format).length = qs.length := by simp
    unfold paginate pySlice
    dsimp only
    have h1 : (p - 1) * (QUESTIONS_PER_PAGE : Int) < 0 := by
      unfold QUESTIONS_PER_PAGE; omega
    have h2 : (p - 1) * (QUESTIONS_PER_PAGE : Int) + (QUESTIONS_PER_PAGE : Int)
        < 0 := by
      unfold QUESTIONS_PER_PAGE; omega
    rw [pyIndex_of_neg h1, pyIndex_of_neg h2, List.drop_take, hlen]
    have e1 : ((qs.length : Int) + ((p - 1) * (QUESTIONS_PER_PAGE : Int)
        + (QUESTIONS_PER_PAGE : Int))).toNat
        - ((qs.length : Int) + (p - 1) * (QUESTIONS_PER_PAGE : Int)).toNat
        = 10 := by
      unfold QUESTIONS_PER_PAGE at *; omega
    have e2 : ((qs.length : Int) + (p - 1) * (QUESTIONS_PER_PAGE : Int)).toNat
        = qs.length - (10 * (1 - p)).toNat := by
      unfold QUESTIONS_PER_PAGE at *; omega
    rw [e1, e2]
  · exact ⟨0, sampleQuestions 10, by decide, by decide⟩

/-- Witness for C9's negative-page clause at page -1 on a 20-question store. -/
theorem claim_C9_witness :
    paginate (-1) (sampleQuestions 20)
      = ((((sampleQuestions 20).map Question.format).drop
          ((sampleQuestions 20).length - ((10 : Int) * (1 - (-1))).toNat)).take 10) :=
  claim_C9.2.1 (-1) (sampleQuestions 20) (by decide) (by decide)

/-- C2: whenever the quiz endpoint replies with a question, that question's
id is not a member of the submitted `previous_questions`, for any category
selection including the all-categories case (id 0) and any random draw. -/
theorem claim_C2 (r : Nat) (b : QuizBody) (store : List Question)
    (fq : FormattedQuestion)
    (h : post_random_quiz_question r (some b) store = .ok fq) :
    fq.id ∉ b.previous_questions := by
  unfold post_random_quiz_question at h
  dsimp only at h
  split at h
  · exact absurd h (by simp)
  · split at h
    · exact absurd h (by simp)
    · rename_i q hget
      injection h with h
      subst h
      have hmem : q ∈ (quizCandidates b.quiz_category_id store).filter
          (fun q => q.id ∉ b.previous_questions) := List.getElem?_mem hget
      have := (List.mem_filter.mp hmem).2
      simpa [Question.format] using of_decide_eq_true this

/-- Witness for C2: two questions, category 0, previous [1]; the reply is
question 2, whose id is not in the previous list. -/
theorem claim_C2_witness :
    (Question.format ⟨2, "q2", "a2", 1, 2⟩).id ∉ ([1] : List Nat) :=
  claim_C2 0 ⟨[1], 0⟩ [⟨1, "q1", "a1", 1, 1⟩, ⟨2, "q2", "a2", 1, 2⟩]
    (Question.format ⟨2, "q2", "a2", 1, 2⟩) (by decide)

/-- C3: when the candidate count of the selected category equals the length
of `previous_questions`, the quiz endpoint replies with the bare
`{success: true}` exhaustion payload, carrying no question. -/
theorem claim_C3 (r : Nat) (b : QuizBody) (store : List Question)
    (h : (quizCandidates b.quiz_category_id store).length
        = b.previous_questions.length) :
    post_random_quiz_question r (some b) store = .exhausted := by
  unfold post_random_quiz_question
  dsimp only
  rw [if_pos h]

/-- Witness for C3: one candidate and one (unrelated) previous entry; the
counts match, so the reply is exhausted. -/
theorem claim_C3_witness :
    post_random_quiz_question 0 (some ⟨[5], 0⟩) [⟨1, "q", "a", 1, 1⟩]
      = QuizResult.exhausted :=
  claim_C3 0 ⟨[5], 0⟩ [⟨1, "q", "a", 1, 1⟩] (by decide)

/-- C10: a quiz request whose candidates are all already in
`previous_questions` while the counts differ (here one candidate, two
previous entries) bypasses the exhaustion check and reaches
`random.choice([])`, an unhandled `IndexError` outside the 400/404/422
error envelope, whatever the random draw. -/
theorem claim_C10 :
    (quizCandidates 0 [⟨1, "q1", "a1", 1, 1⟩]).all
        (fun q => q.id ∈ ([1, 2] : List Nat)) = true ∧
    (quizCandidates 0 [⟨1, "q1", "a1", 1, 1⟩]).length
        ≠ ([1, 2] : List Nat).length ∧
    ∀ r : Nat, post_random_quiz_question r (some ⟨[1, 2], 0⟩)
        [⟨1, "q1", "a1", 1, 1⟩] = QuizResult.crash := by
  refine ⟨by decide, by decide, fun r => ?_⟩
  rfl

/-- C4: in search mode (non-empty `searchTerm`) the endpoint aborts 404 when
no question text contains the term case-insensitively, and otherwise
succeeds with `total_questions` equal to the length of the paginated page
of matches (not the number of all matches). -/
theorem claim_C4 (page : Int) (freshId : Nat) (body : PostQuestionBody)
    (store : List Question) (t : String)
    (hterm : body.searchTerm = some t) (hne : t ≠ "") :
    (store.filter (fun q => ilikeContains q.question t) = [] →
      post_question page freshId body store = (.err 404, store)) ∧
    (store.filter (fun q => ilikeContains q.question t) ≠ [] →
      post_question page freshId body store =
        (.searchOk
          (paginate page (store.filter (fun q => ilikeContains q.question t)))
          (paginate page
            (store.filter (fun q => ilikeContains q.question t))).length,
          store)) := by
  have htruthy : optStrTruthy body.searchTerm = true := by
    rw [hterm]; simpa [optStrTruthy] using hne
  constructor
  · intro hempty
    unfold post_question
    rw [if_pos htruthy, hterm]
    dsimp only [Option.getD]
    rw [hempty]
    simp
  · intro hnonempty
    unfold post_question
    rw [if_pos htruthy, hterm]
    dsimp only [Option.getD]
    rw [if_neg (by simpa [List.length_eq_zero] using hnonempty)]

/-- A concrete store for the search-mode witness. -/
def titleStore : List Question := [⟨7, "The Title Question", "a", 1, 1⟩]

/-- Witness for C4: searching "title" against a store whose only question
text contains "Title" succeeds and reports the page length. -/
theorem claim_C4_witness :
    post_question 1 99 ⟨some "title", none, none, none, none⟩ titleStore
      = (PostQuestionResult.searchOk
          (paginate 1 (titleStore.filter (fun q => ilikeContains q.question "title")))
          (paginate 1
            (titleStore.filter (fun q => ilikeContains q.question "title"))).length,
        titleStore) :=
  (claim_C4 1 99 ⟨some "title", none, none, none, none⟩ titleStore "title"
    rfl (by decide)).2 (by decide)

/-- C5: deleting an absent id aborts 404 and leaves the store unchanged;
deleting a present id succeeds with `deleted: id` and removes the row; and
deleting an existing id twice answers success then 404. -/
theorem claim_C5 (id : Nat) (store : List Question) :
    (store.find? (fun q => q.id = id) = none →
      delete_question id store = (.err 404, store)) ∧
    (∀ q, store.find? (fun q => q.id = id) = some q →
      delete_question id store = (.ok id, store.filter (fun q => q.id ≠ id))) ∧
    ((∃ q ∈ store, q.id = id) →
      (delete_question id store).1 = .ok id ∧
      (delete_question id ((delete_question id store).2)).1 = .err 404) := by
  refine ⟨?_, ?_, ?_⟩
  · intro h
    unfold delete_question
    rw [h]
  · intro q h
    unfold delete_question
    rw [h]
  · intro hex
    obtain ⟨q0, hq0mem, hq0id⟩ := hex
    have hfind : store.find? (fun q => q.id = id) ≠ none := by
      intro hnone
      rw [List.find?_eq_none] at hnone
      exact hnone q0 hq0mem (by simpa using hq0id)
    obtain ⟨qf, hqf⟩ := Option.ne_none_iff_exists'.mp hfind
    have h1 : delete_question id store
        = (.ok id, store.filter (fun q => q.id ≠ id)) := by
      unfold delete_question
      rw [hqf]
    have h2 : (store.filter (fun q => q.id ≠ id)).find?
        (fun q => q.id = id) = none := by
      rw [List.find?_eq_none]
      intro x hx
      have := (List.mem_filter.mp hx).2
      simpa using of_decide_eq_true this
    refine ⟨by rw [h1], ?_⟩
    rw [h1]
    unfold delete_question
    rw [h2]

/-- Witness for C5 on a one-question store: delete id 1 succeeds, deleting
it again answers 404. -/
theorem claim_C5_witness :
    (delete_question 1 [⟨1, "q", "a", 1, 1⟩]).1 = DeleteResult.ok 1 ∧
    (delete_question 1 ((delete_question 1 [⟨1, "q", "a", 1, 1⟩]).2)).1
      = DeleteResult.err 404 :=
  (claim_C5 1 [⟨1, "q", "a", 1, 1⟩]).2.2 ⟨⟨1, "q", "a", 1, 1⟩, by decide, rfl⟩

/-- C6: in create mode (no truthy `searchTerm`) the endpoint aborts 422
whenever any of the four fields question/answer/difficulty/category is
`None`; with all four present it inserts the row and answers with the new
id, its text, a paginated page of all questions, and `total_questions`
equal to the full count including the new row. -/
theorem claim_C6 (page : Int) (freshId : Nat) (body : PostQuestionBody)
    (store : List Question) (hsearch : optStrTruthy body.searchTerm = false) :
    ((body.question = none ∨ body.answer = none ∨ body.difficulty = none ∨
        body.category = none) →
      post_question page freshId body store = (.err 422, store)) ∧
    (∀ q a d c, body.question = some q → body.answer = some a →
      body.difficulty = some d → body.category = some c →
      post_question page freshId body store =
        (.createOk freshId q (paginate page (store ++ [⟨freshId, q, a, c, d⟩]))
          (store.length + 1), store ++ [⟨freshId, q, a, c, d⟩])) := by
  constructor
  · intro hmiss
    unfold post_question
    rw [if_neg (by simp [hsearch])]
    cases hq : body.question <;> cases ha : body.answer <;>
      cases hd : body.difficulty <;> cases hc : body.category <;>
      simp_all
  · intro q a d c hq ha hd hc
    unfold post_question
    rw [if_neg (by simp [hsearch]), hq, ha, hd, hc]
    simp

/-- Witness for C6: creating a question on the empty store. -/
theorem claim_C6_witness :
    post_question 1 42 ⟨none, some "nq", some "na", some 3, some 2⟩ []
      = (PostQuestionResult.createOk 42 "nq"
          (paginate 1 (([] : List Question) ++ [⟨42, "nq", "na", 2, 3⟩]))
          (([] : List Question).length + 1),
        ([] : List Question) ++ [⟨42, "nq", "na", 2, 3⟩]) :=
  (claim_C6 1 42 ⟨none, some "nq", some "na", some 3, some 2⟩ [] rfl).2
    "nq" "na" 3 2 rfl rfl rfl rfl

/-- C7: requesting the questions of an absent category id aborts 400 (not
404); with the category present it succeeds with the questions filtered by
that category id, the pre-pagination count, and the category label. -/
theorem claim_C7 (page : Int) (id : Nat) (store : List Question)
    (cats : List Category) :
    (cats.find? (fun c => c.id = id) = none →
      get_questions_by_category page id store cats = .err 400) ∧
    (∀ cat, cats.find? (fun c => c.id = id) = some cat →
      cat.id = id ∧
      get_questions_by_category page id store cats =
        .ok (paginate page (store.filter (fun q => q.category = cat.id)))
          (store.filter (fun q => q.category = cat.id)).length cat.type) := by
  constructor
  · intro h
    unfold get_questions_by_category
    rw [h]
  · intro cat h
    have hp := List.find?_some h
    refine ⟨by simpa using hp, ?_⟩
    unfold get_questions_by_category
    rw [h]

/-- Witness for C7: category 2 exists, one of two questions is in it. -/
theorem claim_C7_witness :
    (⟨2, "Art"⟩ : Category).id = 2 ∧
    get_questions_by_category 1 2 [⟨1, "q1", "a1", 2, 1⟩, ⟨2, "q2", "a2", 3, 1⟩]
        [⟨2, "Art"⟩]
      = CategoryQuestionsResult.ok
          (paginate 1 ([⟨1, "q1", "a1", 2, 1⟩, ⟨2, "q2", "a2", 3, 1⟩].filter
            (fun q => q.category = (⟨2, "Art"⟩ : Category).id)))
          (([⟨1, "q1", "a1", 2, 1⟩, ⟨2, "q2", "a2", 3, 1⟩] : List Question).filter
            (fun q => q.category = (⟨2, "Art"⟩ : Category).id)).length
          (⟨2, "Art"⟩ : Category).type :=
  (claim_C7 1 2 [⟨1, "q1", "a1", 2, 1⟩, ⟨2, "q2", "a2", 3, 1⟩] [⟨2, "Art"⟩]).2
    ⟨2, "Art"⟩ rfl

/-- C8: listing questions aborts 404 exactly when the paginated slice is
empty (including pages beyond range), and otherwise succeeds with the page,
`total_questions` equal to the full store size before pagination, and the
category labels. -/
theorem claim_C8 (page : Int) (store : List Question) (cats : List Category) :
    (paginate page store = [] → get_questions page store cats = .err 404) ∧
    (paginate page store ≠ [] →
      get_questions page store cats =
        .ok (paginate page store) store.length (cats.map Category.type)) := by
  constructor
  · intro h
    unfold get_questions
    dsimp only
    rw [h]
    simp
  · intro h
    unfold get_questions
    dsimp only
    rw [if_neg (by simpa [List.length_eq_zero] using h)]

/-- Witness for C8: a 12-question store; page 1 holds 10 items, page 2 the
remaining 2, both reporting `total_questions` 12. -/
theorem claim_C8_witness :
    get_questions 1 (sampleQuestions 12) []
      = GetQuestionsResult.ok (paginate 1 (sampleQuestions 12)) 12 [] ∧
    (paginate 1 (sampleQuestions 12)).length = 10 ∧
    get_questions 2 (sampleQuestions 12) []
      = GetQuestionsResult.ok (paginate 2 (sampleQuestions 12)) 12 [] ∧
    (paginate 2 (sampleQuestions 12)).length = 2 :=
  ⟨(claim_C8 1 (sampleQuestions 12) []).2 (by decide), by decide,
   (claim_C8 2 (sampleQuestions 12) []).2 (by decide), by decide⟩

/-- Witness for C10 at random draw 0: the reply is the unhandled crash. -/
theorem claim_C10_witness :
    post_random_quiz_question 0 (some ⟨[1, 2], 0⟩) [⟨1, "q1", "a1", 1, 1⟩]
      = QuizResult.crash :=
  claim_C10.2.2 0
